import Mathlib

/-!
Verification of the payment execution and monitoring workflow of the
stable-pay repository: a shallow embedding of the PaymentConfirm component
(executePayment, monitorTransaction, openPaymentLink and its inner
checkPaymentStatus) and of the thirdweb API wrappers (createPayment,
completePayment, isInsufficientFundsResponse), together with theorems about
side-effect ordering, the poll budget, persistence writes and the funding-gap
retry loop.

External collaborators (the HTTP payment provider, the status endpoint, and
the database) are modelled as oracles: each run of the workflow is a pure
function of a snapshot of the captured component state and of the scripted
outcomes of the external calls.  Database writes are collected into an event
trace; they are modelled as always succeeding (no claim here concerns a
failing persistence write).
-/

namespace StablePay

/-- Persisted status of a transaction record, per the CHECK constraint of the
transactions table in the database schema: pending, monitoring, confirmed or
failed. -/
inductive RecordStatus
  | pending
  | monitoring
  | confirmed
  | failed
deriving DecidableEq, Repr

/-- UI status of the PaymentConfirm component (the PaymentStatus union type in
the source). -/
inductive PaymentStatus
  | confirming
  | sending
  | monitoring
  | success
  | failed
deriving DecidableEq, Repr

/-- Shape of the result object of a completePayment response body.  Each field
is an Option: some models the presence of the corresponding key in the JSON
object, none its absence.  A TransactionResponse carries transactionId and
status; an InsufficientFundsResponse carries link (its rawQuote field, typed
unknown and never inspected by the code, is omitted). -/
structure CompletionResultObj where
  transactionId : Option String
  status : Option String
  link : Option String
deriving DecidableEq, Repr

/-- Parsed JSON body of a completePayment response; the result key may be
absent. -/
structure CompletionBody where
  result : Option CompletionResultObj
deriving DecidableEq, Repr

/-- Type guard isInsufficientFundsResponse of utils/thirdwebAPI: the result
key is present, the result object has a link key and no transactionId key. -/
def isInsufficientFundsResponse (response : CompletionBody) : Bool :=
  match response.result with
  | some r => r.link.isSome && !r.transactionId.isSome
  | none => false

/-- An HTTP response as seen by the API wrappers: a numeric status code and a
parsed JSON body. -/
structure HttpResponse (β : Type) where
  status : Nat
  body : β
deriving DecidableEq, Repr

/-- Truthiness of response.ok of the fetch API: the status code lies in the
range 200 to 299. -/
def responseOk (status : Nat) : Bool :=
  200 ≤ status && status < 300

/-- Wrapper completePayment of utils/thirdwebAPI, as a function of the HTTP
response: on status 402 the parsed body is returned as the insufficient-funds
outcome; on any other non-ok status the wrapper throws; otherwise the parsed
body is returned. -/
def completePayment (resp : HttpResponse CompletionBody) : Except String CompletionBody :=
  if resp.status = 402 then
    Except.ok resp.body
  else if !responseOk resp.status then
    Except.error ("Failed to complete payment: " ++ toString resp.status)
  else
    Except.ok resp.body

/-- Shape of the result object of a createPayment response body; fields model
JSON key presence as in CompletionResultObj. -/
structure CreateResultObj where
  id : Option String
  link : Option String
deriving DecidableEq, Repr

/-- Parsed JSON body of a createPayment response. -/
structure CreateBody where
  result : Option CreateResultObj
deriving DecidableEq, Repr

/-- Value returned by createPayment: the payment id and the funding link (the
link is copied from the body unchecked, so it may be absent). -/
structure PaymentLinkInfo where
  id : String
  link : Option String
deriving DecidableEq, Repr

/-- Wrapper createPayment of utils/thirdwebAPI, as a function of the HTTP
response: a non-ok status throws; on an ok status the body must contain a
truthy result object with a truthy id (a present, non-empty string), else the
wrapper throws the invalid-format error. -/
def createPayment (resp : HttpResponse CreateBody) : Except String PaymentLinkInfo :=
  if !responseOk resp.status then
    Except.error ("Failed to create payment: " ++ toString resp.status)
  else
    match resp.body.result with
    | some r =>
      match r.id with
      | some i =>
        if i ≠ "" then
          Except.ok { id := i, link := r.link }
        else
          Except.error "Invalid payment response format from thirdweb API"
      | none => Except.error "Invalid payment response format from thirdweb API"
    | none => Except.error "Invalid payment response format from thirdweb API"

/-- Result object of a getTransactionStatus response: a status string, an
optional transaction hash and an optional block number. -/
structure StatusResultObj where
  status : String
  transactionHash : Option String
  blockNumber : Option Nat
deriving DecidableEq, Repr

/-- Parsed JSON body of a getTransactionStatus response; the code reads it
through optional chaining, so the result key may be absent. -/
structure StatusBody where
  result : Option StatusResultObj
deriving DecidableEq, Repr

/-- Outcome of one call to getTransactionStatus during monitoring: either the
promise resolves with a parsed body, or it throws (network or non-ok HTTP
outcome). -/
inductive PollResult
  | ok (body : StatusBody)
  | err (msg : String)
deriving DecidableEq, Repr

/-- Value of the optional chain through the result key to the status field. -/
def statusOf (b : StatusBody) : Option String :=
  b.result.map fun r => r.status

/-- Value of the optional chain through the result key to the hash field. -/
def hashOf (b : StatusBody) : Option String :=
  b.result.bind fun r => r.transactionHash

/-- A poll outcome is terminal when it resolves and reports mined, confirmed
or failed; thrown errors and all other statuses continue the loop. -/
def pollTerminal (p : PollResult) : Bool :=
  match p with
  | PollResult.ok body =>
    (statusOf body == some "mined") || (statusOf body == some "confirmed")
      || (statusOf body == some "failed")
  | PollResult.err _ => false

/-- True when the poll outcome is a thrown error. -/
def pollThrew (p : PollResult) : Bool :=
  match p with
  | PollResult.ok _ => false
  | PollResult.err _ => true

/-- One call to the persistence collaborator updateTransactionStatus: the
record id, the new status, and the optional transaction hash argument. -/
structure StoreWrite where
  recId : String
  newStatus : RecordStatus
  txHash : Option String
deriving DecidableEq, Repr

/-- Observable outcome of a monitoring session: the number of polls issued,
the persistence writes performed in order, and the final UI state set by the
loop. -/
structure MonitorResult where
  polls : Nat
  writes : List StoreWrite
  uiStatus : PaymentStatus
  uiError : String
  uiTransactionHash : String
deriving DecidableEq, Repr

/-- The poll budget of monitorTransaction: const maxAttempts = 30. -/
def maxAttempts : Nat := 30

/-- Inner loop checkStatus of monitorTransaction.  The attempts counter is
also the index of the current poll in the script, since the source increments
attempts exactly once per non-terminal poll before rescheduling.  A mined or
confirmed status persists confirmed with the reported hash and sets UI
success; a failed status persists failed and sets UI failed; any other
resolved body, and any thrown error, increments attempts and reschedules while
attempts is below maxAttempts, else stops with a UI-only timeout outcome. -/
def checkStatus (recId : String) (script : Nat → PollResult) (attempts : Nat) :
    MonitorResult :=
  match script attempts with
  | PollResult.ok body =>
    if statusOf body = some "mined" ∨ statusOf body = some "confirmed" then
      { polls := 1,
        writes := [{ recId := recId, newStatus := RecordStatus.confirmed,
                     txHash := hashOf body }],
        uiStatus := PaymentStatus.success, uiError := "",
        uiTransactionHash := (hashOf body).getD "" }
    else if statusOf body = some "failed" then
      { polls := 1,
        writes := [{ recId := recId, newStatus := RecordStatus.failed, txHash := none }],
        uiStatus := PaymentStatus.failed,
        uiError := "Transaction failed on the blockchain",
        uiTransactionHash := "" }
    else if h : attempts + 1 < maxAttempts then
      let rest := checkStatus recId script (attempts + 1)
      { rest with polls := rest.polls + 1 }
    else
      { polls := 1, writes := [], uiStatus := PaymentStatus.failed,
        uiError := "Transaction is taking longer than expected. Check your wallet for updates.",
        uiTransactionHash := "" }
  | PollResult.err _ =>
    if h : attempts + 1 < maxAttempts then
      let rest := checkStatus recId script (attempts + 1)
      { rest with polls := rest.polls + 1 }
    else
      { polls := 1, writes := [], uiStatus := PaymentStatus.failed,
        uiError := "Failed to monitor transaction status",
        uiTransactionHash := "" }
termination_by maxAttempts - attempts
decreasing_by all_goals (simp_wf; omega)

/-- Entry point monitorTransaction: start the polling loop with the attempts
counter at zero. -/
def monitorTransaction (recId : String) (script : Nat → PollResult) : MonitorResult :=
  checkStatus recId script 0

/-- Modelled from the spec: a persisted PaymentRecord as kept by the
persistence collaborator (the supabase utility module is not among the
sources; the schema initializes status to pending).  Only the fields the
workflow can change are modelled; confirmedAt records whether the confirmed
timestamp has been set. -/
structure StoredRecord where
  status : RecordStatus
  transactionHash : Option String
  confirmedAt : Bool
deriving DecidableEq, Repr

/-- Modelled from the spec: the record created by createTransaction, with
status initialized to pending (the schema default), no hash and no confirmed
timestamp. -/
def newRecord : StoredRecord :=
  { status := RecordStatus.pending, transactionHash := none, confirmedAt := false }

/-- Modelled from the spec: updatePaymentRecordStatus sets the status, the
transaction hash when one is provided, and the confirmed timestamp when the
new status is confirmed. -/
def applyWrite (rec : StoredRecord) (w : StoreWrite) : StoredRecord :=
  { status := w.newStatus,
    transactionHash := match w.txHash with
      | some h => some h
      | none => rec.transactionHash,
    confirmedAt := if w.newStatus = RecordStatus.confirmed then true else rec.confirmedAt }

/-- Apply, in order, those writes of a list that target the given record. -/
def applyWritesTo (recId : String) (rec : StoredRecord) (ws : List StoreWrite) :
    StoredRecord :=
  ws.foldl (fun r w => if w.recId = recId then applyWrite r w else r) rec

/-- Snapshot of the PaymentConfirm component state captured by a closure at
the render that created it.  Calls to the state setters during a run schedule
a re-render but do not change these captured values; in particular the
transactionId field is the record id captured at render time, the empty
string standing for the initial, unset state. -/
structure Snapshot where
  userWallet : Option String
  authToken : Option String
  uiStatus : PaymentStatus
  uiError : String
  transactionId : String
  paymentLink : String
  currentPaymentId : String
  showInsufficientFunds : Bool
deriving DecidableEq, Repr

/-- External calls made by executePayment, in program order: the Supabase
record insert, the two payment-provider calls, and Supabase status updates. -/
inductive Event
  | dbCreate
  | apiCreatePayment
  | apiCompletePayment
  | dbUpdate (w : StoreWrite)
deriving DecidableEq, Repr

/-- Scripted outcomes of the external collaborators for one executePayment
run: the result of createTransaction (the new record id, or a thrown error),
of createPayment, of completePayment, and the script of poll outcomes for the
monitoring loop. -/
structure Env where
  dbCreate : Except String String
  apiCreate : Except String PaymentLinkInfo
  apiComplete : Except String CompletionBody
  pollScript : Nat → PollResult

/-- Observable outcome of one executePayment run: the trace of external calls
in order, the final UI state, the component state values after the scheduled
setter calls flush, and the monitoring session outcome when one was started. -/
structure ExecResult where
  trace : List Event
  uiStatus : PaymentStatus
  uiError : String
  showInsufficientFunds : Bool
  paymentLink : String
  currentPaymentId : String
  stateTransactionId : String
  monitor : Option MonitorResult
deriving DecidableEq, Repr

/-- Store writes contained in a trace, in order. -/
def dbUpdates (t : List Event) : List StoreWrite :=
  t.filterMap fun e =>
    match e with
    | Event.dbUpdate w => some w
    | _ => none

/-- True for the two calls to the external payment provider. -/
def isProviderCall (e : Event) : Bool :=
  match e with
  | Event.apiCreatePayment => true
  | Event.apiCompletePayment => true
  | _ => false

/-- Catch block of executePayment: set the UI to failed with the thrown
message, and update the record to failed only when the captured transactionId
state is truthy.  The guard reads the snapshot value, not the id scheduled by
setTransactionId earlier in the same run, because the closure sees the
render-time state. -/
def execCatch (snap : Snapshot) (tr : List Event) (msg : String)
    (link : String) (payId : String) (stId : String) : ExecResult :=
  { trace := tr ++
      (if snap.transactionId ≠ "" then
        [Event.dbUpdate { recId := snap.transactionId,
                          newStatus := RecordStatus.failed, txHash := none }]
      else []),
    uiStatus := PaymentStatus.failed, uiError := msg,
    showInsufficientFunds := snap.showInsufficientFunds,
    paymentLink := link, currentPaymentId := payId,
    stateTransactionId := stId, monitor := none }

/-- Handler executePayment of PaymentConfirm.  Returns immediately when the
wallet address or the auth token is missing.  Otherwise: create the Supabase
record first; then create the payment with the provider; then attempt
completion.  A 402 body recognized by the type guard shows the funding link
and stops without any status update.  A body with a transaction id updates
the record to pending (a persistence failure there would be swallowed) and
starts the monitoring loop.  Any thrown error reaches the catch block. -/
def executePayment (snap : Snapshot) (env : Env) : ExecResult :=
  match snap.userWallet, snap.authToken with
  | some _, some _ =>
    (match env.dbCreate with
     | Except.error e =>
       execCatch snap [Event.dbCreate] e snap.paymentLink snap.currentPaymentId
         snap.transactionId
     | Except.ok recId =>
       match env.apiCreate with
       | Except.error e =>
         execCatch snap [Event.dbCreate, Event.apiCreatePayment] e snap.paymentLink
           snap.currentPaymentId recId
       | Except.ok pay =>
         match env.apiComplete with
         | Except.error e =>
           execCatch snap
             [Event.dbCreate, Event.apiCreatePayment, Event.apiCompletePayment] e
             (pay.link.getD "") pay.id recId
         | Except.ok result =>
           if isInsufficientFundsResponse result then
             { trace := [Event.dbCreate, Event.apiCreatePayment, Event.apiCompletePayment],
               uiStatus := PaymentStatus.confirming, uiError := "",
               showInsufficientFunds := true,
               paymentLink := pay.link.getD "", currentPaymentId := pay.id,
               stateTransactionId := recId, monitor := none }
           else
             match result.result with
             | some r =>
               match r.transactionId with
               | some _ =>
                 let m := monitorTransaction recId env.pollScript
                 { trace := [Event.dbCreate, Event.apiCreatePayment,
                             Event.apiCompletePayment,
                             Event.dbUpdate { recId := recId,
                                              newStatus := RecordStatus.pending,
                                              txHash := none }],
                   uiStatus := m.uiStatus, uiError := m.uiError,
                   showInsufficientFunds := snap.showInsufficientFunds,
                   paymentLink := pay.link.getD "", currentPaymentId := pay.id,
                   stateTransactionId := recId, monitor := some m }
               | none =>
                 execCatch snap
                   [Event.dbCreate, Event.apiCreatePayment, Event.apiCompletePayment]
                   "Failed to get transaction ID from thirdweb"
                   (pay.link.getD "") pay.id recId
             | none =>
               execCatch snap
                 [Event.dbCreate, Event.apiCreatePayment, Event.apiCompletePayment]
                 "Failed to get transaction ID from thirdweb"
                 (pay.link.getD "") pay.id recId)
  | _, _ =>
    { trace := [], uiStatus := snap.uiStatus, uiError := snap.uiError,
      showInsufficientFunds := snap.showInsufficientFunds,
      paymentLink := snap.paymentLink, currentPaymentId := snap.currentPaymentId,
      stateTransactionId := snap.transactionId, monitor := none }

/-- Observable outcome of one run of the funding-gap re-check
checkPaymentStatus: whether and with which delay another re-check was
scheduled, the resulting funding-gap presentation flags, the persistence
writes, the final UI status, and the monitoring session when one started. -/
structure RecheckResult where
  rescheduleDelayMs : Option Nat
  showInsufficientFunds : Bool
  paymentLink : String
  writes : List StoreWrite
  uiStatus : PaymentStatus
  monitor : Option MonitorResult
deriving DecidableEq, Repr

/-- Inner function checkPaymentStatus of openPaymentLink.  A thrown completion
attempt reaches the catch block, which schedules the next re-check after 5000
milliseconds.  A resolved body is inspected for a transaction id: when present
the funding-gap presentation is cleared and, if a record id was captured,
the record is updated to pending and monitoring starts; a resolved body
without a transaction id (in particular a 402 insufficient-funds body) falls
through the conditional, so nothing changes and no further re-check is
scheduled. -/
def checkPaymentStatus (snap : Snapshot) (complete : Except String CompletionBody)
    (script : Nat → PollResult) : RecheckResult :=
  match complete with
  | Except.error _ =>
    { rescheduleDelayMs := some 5000,
      showInsufficientFunds := snap.showInsufficientFunds,
      paymentLink := snap.paymentLink,
      writes := [], uiStatus := snap.uiStatus, monitor := none }
  | Except.ok result =>
    match result.result with
    | some r =>
      match r.transactionId with
      | some _ =>
        if snap.transactionId ≠ "" then
          let m := monitorTransaction snap.transactionId script
          { rescheduleDelayMs := none,
            showInsufficientFunds := false, paymentLink := "",
            writes := [{ recId := snap.transactionId,
                         newStatus := RecordStatus.pending, txHash := none }],
            uiStatus := m.uiStatus, monitor := some m }
        else
          { rescheduleDelayMs := none,
            showInsufficientFunds := false, paymentLink := "",
            writes := [], uiStatus := snap.uiStatus, monitor := none }
      | none =>
        { rescheduleDelayMs := none,
          showInsufficientFunds := snap.showInsufficientFunds,
          paymentLink := snap.paymentLink,
          writes := [], uiStatus := snap.uiStatus, monitor := none }
    | none =>
      { rescheduleDelayMs := none,
        showInsufficientFunds := snap.showInsufficientFunds,
        paymentLink := snap.paymentLink,
        writes := [], uiStatus := snap.uiStatus, monitor := none }

/-- Handler openPaymentLink: when a funding link is present, open it and
schedule the first passive re-check after 10000 milliseconds; otherwise do
nothing.  The returned value is the delay of the scheduled first re-check. -/
def openPaymentLink (snap : Snapshot) : Option Nat :=
  if snap.paymentLink ≠ "" then some 10000 else none

/-- Script of poll outcomes never consulted by the runs it is given to. -/
def scriptUnused : Nat → PollResult :=
  fun _ => PollResult.err "unused"

/-- Response body of a poll reporting the non-terminal status queued. -/
def queuedBody : StatusBody :=
  { result := some { status := "queued", transactionHash := none, blockNumber := none } }

/-- Script on which every poll resolves with status queued. -/
def scriptQueued : Nat → PollResult :=
  fun _ => PollResult.ok queuedBody

/-- Script on which the first poll throws a network error and every later
poll resolves with status queued. -/
def scriptErrThenQueued : Nat → PollResult :=
  fun i => if i = 0 then PollResult.err "Network error" else PollResult.ok queuedBody

/-- Script on which the first poll resolves with status queued and every
later poll resolves with status mined and a transaction hash. -/
def scriptQueuedThenMined : Nat → PollResult :=
  fun i =>
    if i = 0 then PollResult.ok queuedBody
    else PollResult.ok
      { result := some { status := "mined", transactionHash := some "0xmine",
                         blockNumber := none } }

/-- Script on which every poll resolves with status failed. -/
def scriptFailedPoll : Nat → PollResult :=
  fun _ => PollResult.ok
    { result := some { status := "failed", transactionHash := none, blockNumber := none } }

/-- Completion body of the insufficient-funds shape: a result object with a
funding link and no transaction id. -/
def fundingBody : CompletionBody :=
  { result := some { transactionId := none, status := none,
                     link := some "https://pay.example/fund" } }

/-- Completion body of the successful shape: a result object with a
transaction id and a status. -/
def successBody : CompletionBody :=
  { result := some { transactionId := some "tx-1", status := some "submitted",
                     link := none } }

/-- Snapshot of a first payment attempt: wallet and token present, captured
transactionId state still the initial empty string. -/
def snapInitial : Snapshot :=
  { userWallet := some "0xPayer", authToken := some "jwt-token",
    uiStatus := PaymentStatus.confirming, uiError := "",
    transactionId := "", paymentLink := "", currentPaymentId := "",
    showInsufficientFunds := false }

/-- Snapshot of the render reached after an insufficient-funds outcome: the
record id and funding link have been captured and the funding-gap banner is
showing. -/
def snapAwaitingFunds : Snapshot :=
  { userWallet := some "0xPayer", authToken := some "jwt-token",
    uiStatus := PaymentStatus.confirming, uiError := "",
    transactionId := "rec-1", paymentLink := "https://pay.example/fund",
    currentPaymentId := "pay-1", showInsufficientFunds := true }

/-- Environment in which the Supabase record insert throws. -/
def envCreateRecordFails : Env :=
  { dbCreate := Except.error "db insert refused",
    apiCreate := Except.ok { id := "pay-1", link := some "https://pay.example/fund" },
    apiComplete := Except.ok successBody, pollScript := scriptUnused }

/-- Environment in which the record insert succeeds and createPayment then
throws with a non-success provider status. -/
def envUpstreamFailure : Env :=
  { dbCreate := Except.ok "rec-1",
    apiCreate := Except.error "Failed to create payment: 500",
    apiComplete := Except.ok successBody, pollScript := scriptUnused }

/-- Environment in which creation succeeds and completion resolves with the
insufficient-funds body. -/
def envFundingGap : Env :=
  { dbCreate := Except.ok "rec-6",
    apiCreate := Except.ok { id := "pay-6", link := some "https://pay.example/fund" },
    apiComplete := Except.ok fundingBody, pollScript := scriptUnused }

/-- A record already persisted as confirmed, with its hash and timestamp. -/
def confirmedRecord : StoredRecord :=
  { status := RecordStatus.confirmed, transactionHash := some "0xdone",
    confirmedAt := true }

/-- A 402 HTTP response carrying the insufficient-funds body. -/
def resp402 : HttpResponse CompletionBody :=
  { status := 402, body := fundingBody }

/-- A 200 HTTP response to createPayment with a well-formed body. -/
def respCreateOk : HttpResponse CreateBody :=
  { status := 200,
    body := { result := some { id := some "pay-1",
                               link := some "https://pay.example/fund" } } }

lemma checkStatus_continue (recId : String) (script : Nat → PollResult) (a : Nat)
    (hnt : pollTerminal (script a) = false) (hb : a + 1 < maxAttempts) :
    checkStatus recId script a =
      { checkStatus recId script (a + 1) with
        polls := (checkStatus recId script (a + 1)).polls + 1 } := by
  rw [checkStatus]
  cases hsa : script a with
  | ok body =>
    rw [hsa] at hnt
    simp only [pollTerminal, Bool.or_eq_false_iff, beq_eq_false_iff_ne, ne_eq] at hnt
    dsimp only
    rw [if_neg (by tauto), if_neg (by tauto), dif_pos hb]
  | err m =>
    dsimp only
    rw [dif_pos hb]

lemma checkStatus_timeout (recId : String) (script : Nat → PollResult) (a : Nat)
    (hnt : pollTerminal (script a) = false) (hth : pollThrew (script a) = false)
    (hb : ¬a + 1 < maxAttempts) :
    checkStatus recId script a =
      { polls := 1, writes := [], uiStatus := PaymentStatus.failed,
        uiError := "Transaction is taking longer than expected. Check your wallet for updates.",
        uiTransactionHash := "" } := by
  rw [checkStatus]
  cases hsa : script a with
  | ok body =>
    rw [hsa] at hnt
    simp only [pollTerminal, Bool.or_eq_false_iff, beq_eq_false_iff_ne, ne_eq] at hnt
    dsimp only
    rw [if_neg (by tauto), if_neg (by tauto), dif_neg hb]
  | err m =>
    rw [hsa] at hth
    simp [pollThrew] at hth

lemma checkStatus_polls_stop (recId : String) (script : Nat → PollResult) (a : Nat)
    (hb : ¬a + 1 < maxAttempts) :
    (checkStatus recId script a).polls = 1 := by
  rw [checkStatus]
  cases script a with
  | ok body =>
    dsimp only
    by_cases h1 : statusOf body = some "mined" ∨ statusOf body = some "confirmed"
    · rw [if_pos h1]
    · rw [if_neg h1]
      by_cases h2 : statusOf body = some "failed"
      · rw [if_pos h2]
      · rw [if_neg h2, dif_neg hb]
  | err m =>
    dsimp only
    rw [dif_neg hb]

lemma checkStatus_polls_terminal (recId : String) (script : Nat → PollResult) (a : Nat)
    (ht : pollTerminal (script a) = true) :
    (checkStatus recId script a).polls = 1 := by
  rw [checkStatus]
  cases hsa : script a with
  | ok body =>
    rw [hsa] at ht
    simp only [pollTerminal, Bool.or_eq_true, beq_iff_eq] at ht
    dsimp only
    rcases ht with (h | h) | h
    · rw [if_pos (Or.inl h)]
    · rw [if_pos (Or.inr h)]
    · rw [if_neg (by simp [h]), if_pos h]
  | err m =>
    rw [hsa] at ht
    simp [pollTerminal] at ht

lemma checkStatus_polls_le (recId : String) (script : Nat → PollResult) :
    ∀ (n a : Nat), maxAttempts - a ≤ n →
      (checkStatus recId script a).polls ≤ max 1 (maxAttempts - a) := by
  intro n
  induction n with
  | zero =>
    intro a ha
    rw [checkStatus_polls_stop recId script a (by omega)]
    simp
  | succ k ih =>
    intro a ha
    by_cases hb : a + 1 < maxAttempts
    · by_cases hnt : pollTerminal (script a) = true
      · rw [checkStatus_polls_terminal recId script a hnt]
        simp
      · rw [checkStatus_continue recId script a (by simpa using hnt) hb]
        have := ih (a + 1) (by omega)
        simp only
        omega
    · rw [checkStatus_polls_stop recId script a hb]
      simp

lemma checkStatus_confirmed (recId : String) (script : Nat → PollResult) (a : Nat)
    (body : StatusBody) (hsa : script a = PollResult.ok body)
    (h : statusOf body = some "mined" ∨ statusOf body = some "confirmed") :
    checkStatus recId script a =
      { polls := 1,
        writes := [{ recId := recId, newStatus := RecordStatus.confirmed,
                     txHash := hashOf body }],
        uiStatus := PaymentStatus.success, uiError := "",
        uiTransactionHash := (hashOf body).getD "" } := by
  rw [checkStatus, hsa]
  dsimp only
  rw [if_pos h]

lemma checkStatus_failedPoll (recId : String) (script : Nat → PollResult) (a : Nat)
    (body : StatusBody) (hsa : script a = PollResult.ok body)
    (h1 : ¬(statusOf body = some "mined" ∨ statusOf body = some "confirmed"))
    (h2 : statusOf body = some "failed") :
    checkStatus recId script a =
      { polls := 1,
        writes := [{ recId := recId, newStatus := RecordStatus.failed, txHash := none }],
        uiStatus := PaymentStatus.failed,
        uiError := "Transaction failed on the blockchain",
        uiTransactionHash := "" } := by
  rw [checkStatus, hsa]
  dsimp only
  rw [if_neg h1, if_pos h2]

lemma checkStatus_errStop (recId : String) (script : Nat → PollResult) (a : Nat)
    (m : String) (hsa : script a = PollResult.err m) (hb : ¬a + 1 < maxAttempts) :
    checkStatus recId script a =
      { polls := 1, writes := [], uiStatus := PaymentStatus.failed,
        uiError := "Failed to monitor transaction status",
        uiTransactionHash := "" } := by
  rw [checkStatus, hsa]
  dsimp only
  rw [dif_neg hb]

lemma checkStatus_writes_terminal (recId : String) (script : Nat → PollResult) :
    ∀ (n a : Nat), maxAttempts - a ≤ n →
      ∀ w ∈ (checkStatus recId script a).writes,
        w.newStatus = RecordStatus.confirmed ∨ w.newStatus = RecordStatus.failed := by
  intro n
  induction n with
  | zero =>
    intro a ha w hw
    have hb : ¬a + 1 < maxAttempts := by omega
    cases hsa : script a with
    | ok body =>
      by_cases h1 : statusOf body = some "mined" ∨ statusOf body = some "confirmed"
      · rw [checkStatus_confirmed recId script a body hsa h1] at hw
        simp at hw
        simp [hw]
      · by_cases h2 : statusOf body = some "failed"
        · rw [checkStatus_failedPoll recId script a body hsa h1 h2] at hw
          simp at hw
          simp [hw]
        · rw [checkStatus_timeout recId script a
              (by simp [pollTerminal, hsa]; tauto) (by simp [pollThrew, hsa]) hb] at hw
          simp at hw
    | err m =>
      rw [checkStatus_errStop recId script a m hsa hb] at hw
      simp at hw
  | succ k ih =>
    intro a ha w hw
    cases hsa : script a with
    | ok body =>
      by_cases h1 : statusOf body = some "mined" ∨ statusOf body = some "confirmed"
      · rw [checkStatus_confirmed recId script a body hsa h1] at hw
        simp at hw
        simp [hw]
      · by_cases h2 : statusOf body = some "failed"
        · rw [checkStatus_failedPoll recId script a body hsa h1 h2] at hw
          simp at hw
          simp [hw]
        · by_cases hb : a + 1 < maxAttempts
          · rw [checkStatus_continue recId script a
                (by simp [pollTerminal, hsa]; tauto) hb] at hw
            exact ih (a + 1) (by omega) w hw
          · rw [checkStatus_timeout recId script a
                (by simp [pollTerminal, hsa]; tauto) (by simp [pollThrew, hsa]) hb] at hw
            simp at hw
    | err m =>
      by_cases hb : a + 1 < maxAttempts
      · rw [checkStatus_continue recId script a (by simp [pollTerminal, hsa]) hb] at hw
        exact ih (a + 1) (by omega) w hw
      · rw [checkStatus_errStop recId script a m hsa hb] at hw
        simp at hw

lemma checkStatus_all_nonterminal (recId : String) (script : Nat → PollResult) :
    ∀ (n a : Nat), maxAttempts - a = n → a < maxAttempts →
      (∀ i, a ≤ i → i < maxAttempts → pollTerminal (script i) = false) →
      pollThrew (script (maxAttempts - 1)) = false →
      checkStatus recId script a =
        { polls := maxAttempts - a, writes := [], uiStatus := PaymentStatus.failed,
          uiError := "Transaction is taking longer than expected. Check your wallet for updates.",
          uiTransactionHash := "" } := by
  intro n
  induction n with
  | zero => intro a ha ha2 _ _; omega
  | succ k ih =>
    intro a ha ha2 hnt hlast
    by_cases hb : a + 1 < maxAttempts
    · rw [checkStatus_continue recId script a (hnt a le_rfl ha2) hb]
      rw [ih (a + 1) (by omega) (by omega) (fun i hi hi2 => hnt i (by omega) hi2) hlast]
      have heq : maxAttempts - (a + 1) + 1 = maxAttempts - a := by omega
      simp [heq]
    · have haeq : a = maxAttempts - 1 := by omega
      rw [checkStatus_timeout recId script a (hnt a le_rfl ha2) (haeq ▸ hlast) hb]
      have h1 : maxAttempts - a = 1 := by omega
      simp [h1]

lemma checkStatus_polls_pos (recId : String) (script : Nat → PollResult) (a : Nat) :
    1 ≤ (checkStatus recId script a).polls := by
  by_cases hb : a + 1 < maxAttempts
  · by_cases ht : pollTerminal (script a) = true
    · rw [checkStatus_polls_terminal recId script a ht]
    · rw [checkStatus_continue recId script a (by simpa using ht) hb]
      simp
  · rw [checkStatus_polls_stop recId script a hb]

lemma checkStatus_polls_ge (recId : String) (script : Nat → PollResult) :
    ∀ (k a : Nat), (∀ i, a ≤ i → i ≤ a + k → pollTerminal (script i) = false) →
      a + k + 1 < maxAttempts →
      k + 2 ≤ (checkStatus recId script a).polls := by
  intro k
  induction k with
  | zero =>
    intro a hnt hb
    rw [checkStatus_continue recId script a (hnt a le_rfl (by omega)) (by omega)]
    have := checkStatus_polls_pos recId script (a + 1)
    simp only
    omega
  | succ k ih =>
    intro a hnt hb
    rw [checkStatus_continue recId script a (hnt a le_rfl (by omega)) (by omega)]
    have := ih (a + 1) (fun i hi hi2 => hnt i (by omega) (by omega)) (by omega)
    simp only
    omega

lemma applyWritesTo_cons (recId : String) (rec : StoredRecord) (w : StoreWrite)
    (ws : List StoreWrite) :
    applyWritesTo recId rec (w :: ws) =
      applyWritesTo recId (if w.recId = recId then applyWrite rec w else rec) ws := rfl

lemma applyWritesTo_status_terminal (recId : String) :
    ∀ (ws : List StoreWrite) (rec : StoredRecord),
      (rec.status = RecordStatus.confirmed ∨ rec.status = RecordStatus.failed) →
      (∀ w ∈ ws, w.newStatus = RecordStatus.confirmed ∨ w.newStatus = RecordStatus.failed) →
      ((applyWritesTo recId rec ws).status = RecordStatus.confirmed
        ∨ (applyWritesTo recId rec ws).status = RecordStatus.failed) := by
  intro ws
  induction ws with
  | nil =>
    intro rec h _
    simpa [applyWritesTo] using h
  | cons w ws ih =>
    intro rec h hws
    rw [applyWritesTo_cons]
    apply ih
    · by_cases hw : w.recId = recId
      · rw [if_pos hw]
        simpa [applyWrite] using hws w (by simp)
      · rw [if_neg hw]
        exact h
    · intro v hv
      exact hws v (by simp [hv])

lemma providerCall_pos_of_head_dbCreate (t : List Event)
    (hhead : t.get? 0 = some Event.dbCreate) :
    ∀ i e, t.get? i = some e → isProviderCall e = true →
      t.get? 0 = some Event.dbCreate ∧ 0 < i := by
  intro i e hi hp
  refine ⟨hhead, ?_⟩
  cases i with
  | zero =>
    rw [hi] at hhead
    cases hhead
    simp [isProviderCall] at hp
  | succ n => omega

lemma executePayment_trace_shape (snap : Snapshot) (env : Env) :
    (executePayment snap env).trace = [] ∨
      (executePayment snap env).trace.get? 0 = some Event.dbCreate := by
  rcases hsw : snap.userWallet with _ | w
  · left
    simp [executePayment, hsw]
  · rcases hst : snap.authToken with _ | t
    · left
      simp [executePayment, hsw, hst]
    · right
      rcases hdb : env.dbCreate with e | recId
      · simp [executePayment, hsw, hst, hdb, execCatch]
      · rcases hac : env.apiCreate with e2 | pay
        · simp [executePayment, hsw, hst, hdb, hac, execCatch]
        · rcases hacp : env.apiComplete with e3 | result
          · simp [executePayment, hsw, hst, hdb, hac, hacp, execCatch]
          · by_cases hins : isInsufficientFundsResponse result
            · simp [executePayment, hsw, hst, hdb, hac, hacp, hins]
            · rcases hres : result.result with _ | r
              · simp [executePayment, hsw, hst, hdb, hac, hacp, hins, hres, execCatch]
              · rcases hrtx : r.transactionId with _ | tx
                · simp [executePayment, hsw, hst, hdb, hac, hacp, hins, hres, hrtx,
                        execCatch]
                · simp [executePayment, hsw, hst, hdb, hac, hacp, hins, hres, hrtx]

lemma executePayment_abort_on_create_error (snap : Snapshot) (env : Env)
    (msg : String) (h : env.dbCreate = Except.error msg) :
    ∀ e ∈ (executePayment snap env).trace, isProviderCall e = false := by
  rcases hsw : snap.userWallet with _ | w
  · simp [executePayment, hsw]
  · rcases hst : snap.authToken with _ | t
    · simp [executePayment, hsw, hst]
    · intro e he
      by_cases htid : snap.transactionId = ""
      · simp [executePayment, hsw, hst, h, execCatch, htid] at he
        simp [he, isProviderCall]
      · simp [executePayment, hsw, hst, h, execCatch, htid] at he
        rcases he with he | he <;> simp [he, isProviderCall]

/-- C2: every monitoring session issues at most 30 status checks; a scripted
run of 30 queued responses ends in the timed-out outcome after exactly 30
polls with no persistence write (hence no 31st poll is issued), and a thrown
first poll followed by 29 queued responses also ends in the timed-out outcome
at exactly 30 polls, the error counting toward the same budget. -/
theorem monitor_poll_budget_thirty :
    (∀ (recId : String) (script : Nat → PollResult),
        (monitorTransaction recId script).polls ≤ maxAttempts)
    ∧ monitorTransaction "rec-1" scriptQueued =
        { polls := 30, writes := [], uiStatus := PaymentStatus.failed,
          uiError := "Transaction is taking longer than expected. Check your wallet for updates.",
          uiTransactionHash := "" }
    ∧ monitorTransaction "rec-1" scriptErrThenQueued =
        { polls := 30, writes := [], uiStatus := PaymentStatus.failed,
          uiError := "Transaction is taking longer than expected. Check your wallet for updates.",
          uiTransactionHash := "" } := by
  refine ⟨?_, ?_, ?_⟩
  · intro recId script
    have h := checkStatus_polls_le recId script maxAttempts 0 (by omega)
    simpa [monitorTransaction, maxAttempts] using h
  · have h := checkStatus_all_nonterminal "rec-1" scriptQueued maxAttempts 0 rfl
      (by decide) (fun i _ _ => rfl) rfl
    rw [monitorTransaction, h]
    rfl
  · have hnt : ∀ i, 0 ≤ i → i < maxAttempts →
        pollTerminal (scriptErrThenQueued i) = false := by
      intro i _ _
      by_cases h : i = 0
      · subst h
        rfl
      · unfold scriptErrThenQueued
        rw [if_neg h]
        rfl
    have h := checkStatus_all_nonterminal "rec-1" scriptErrThenQueued maxAttempts 0 rfl
      (by decide) hnt rfl
    rw [monitorTransaction, h]
    rfl

/-- C3 counterexample: after 30 queued polls the monitor performs no
persistence write at all; it only sets the UI failed state and the
taking-longer message, refuting the claim that PaymentRecord.status = failed
is written through the persistence collaborator on timeout. -/
theorem monitor_timeout_no_persist_cex :
    (monitorTransaction "rec-3" scriptQueued).writes = []
    ∧ (monitorTransaction "rec-3" scriptQueued).uiStatus = PaymentStatus.failed
    ∧ (monitorTransaction "rec-3" scriptQueued).uiError =
        "Transaction is taking longer than expected. Check your wallet for updates." := by
  have h := checkStatus_all_nonterminal "rec-3" scriptQueued maxAttempts 0 rfl
    (by decide) (fun i _ _ => rfl) rfl
  refine ⟨?_, ?_, ?_⟩ <;> rw [monitorTransaction, h]

/-- C3 amended: when every poll within the budget is non-terminal and the
final one did not throw, the monitor stops after exactly 30 polls, surfaces
the distinguished taking-longer message and sets the UI status to failed, but
performs no write through the persistence collaborator, so the record keeps
its prior persisted status. -/
theorem monitor_timeout_ui_only (recId : String) (script : Nat → PollResult)
    (hnt : ∀ i, i < maxAttempts → pollTerminal (script i) = false)
    (hlast : pollThrew (script (maxAttempts - 1)) = false) :
    monitorTransaction recId script =
      { polls := maxAttempts, writes := [], uiStatus := PaymentStatus.failed,
        uiError := "Transaction is taking longer than expected. Check your wallet for updates.",
        uiTransactionHash := "" } := by
  have h := checkStatus_all_nonterminal recId script maxAttempts 0 rfl (by decide)
    (fun i _ hi => hnt i hi) hlast
  rw [monitorTransaction, h]
  rfl

/-- Witness for the amended C3 theorem at the all-queued script. -/
theorem monitor_timeout_ui_only_witness :
    monitorTransaction "rec-3w" scriptQueued =
      { polls := 30, writes := [], uiStatus := PaymentStatus.failed,
        uiError := "Transaction is taking longer than expected. Check your wallet for updates.",
        uiTransactionHash := "" } :=
  monitor_timeout_ui_only "rec-3w" scriptQueued (fun _ _ => rfl) rfl

/-- C5 counterexample: on a script whose first poll is the non-terminal
queued and whose second poll is mined, the run issues two polls and its only
persistence write is the confirmed one; no write of status monitoring is ever
issued for the non-terminal poll, refuting the claim as stated. -/
theorem monitor_nonterminal_write_cex :
    pollTerminal (scriptQueuedThenMined 0) = false
    ∧ monitorTransaction "rec-5" scriptQueuedThenMined =
      { polls := 2,
        writes := [{ recId := "rec-5", newStatus := RecordStatus.confirmed,
                     txHash := some "0xmine" }],
        uiStatus := PaymentStatus.success, uiError := "",
        uiTransactionHash := "0xmine" } := by
  refine ⟨rfl, ?_⟩
  simp [monitorTransaction, checkStatus, scriptQueuedThenMined, statusOf, hashOf,
        maxAttempts, queuedBody]

/-- C5 amended: a non-terminal poll performs no persistence write at all (in
particular, the status monitoring is never written by the monitor, whose
writes are only the terminal confirmed or failed), and while the attempt
budget is not exhausted the next poll is scheduled: after polls 0..k all
non-terminal with k+1 below the budget, at least k+2 polls are issued. -/
theorem monitor_nonterminal_no_write (recId : String) (script : Nat → PollResult)
    (k : Nat) (hnt : ∀ i, i ≤ k → pollTerminal (script i) = false)
    (hk : k + 1 < maxAttempts) :
    k + 2 ≤ (monitorTransaction recId script).polls
    ∧ ∀ w ∈ (monitorTransaction recId script).writes,
        w.newStatus ≠ RecordStatus.monitoring := by
  constructor
  · exact checkStatus_polls_ge recId script k 0 (fun i _ hi2 => hnt i (by omega))
      (by omega)
  · intro w hw
    rcases checkStatus_writes_terminal recId script maxAttempts 0 (by omega) w hw
      with h1 | h1 <;> simp [h1]

/-- Witness for the amended C5 theorem at the all-queued script with one
non-terminal poll observed. -/
theorem monitor_nonterminal_no_write_witness :
    0 + 2 ≤ (monitorTransaction "rec-5w" scriptQueued).polls :=
  (monitor_nonterminal_no_write "rec-5w" scriptQueued 0 (fun i _ => rfl)
    (by decide)).1

/-- C9 counterexample: re-invoking the monitor for a record persisted as
confirmed, on a script whose first poll reports failed, issues a write of
status failed that overwrites the terminal persisted status, refuting the
claim that such a re-invocation is a no-op on persisted state. -/
theorem monitor_overwrites_terminal_cex :
    confirmedRecord.status = RecordStatus.confirmed
    ∧ (applyWritesTo "rec-9" confirmedRecord
        (monitorTransaction "rec-9" scriptFailedPoll).writes).status
        = RecordStatus.failed := by
  have hrun : monitorTransaction "rec-9" scriptFailedPoll =
      { polls := 1,
        writes := [{ recId := "rec-9", newStatus := RecordStatus.failed, txHash := none }],
        uiStatus := PaymentStatus.failed,
        uiError := "Transaction failed on the blockchain",
        uiTransactionHash := "" } := by
    rw [monitorTransaction]
    exact checkStatus_failedPoll "rec-9" scriptFailedPoll 0 _ rfl (by decide) rfl
  refine ⟨rfl, ?_⟩
  rw [hrun]
  rfl

/-- C9 amended: the monitor never checks the persisted status before writing,
so a re-invocation can overwrite one terminal status with another; however,
every write it issues is terminal (confirmed or failed), so a record whose
persisted status is terminal keeps a terminal status and is never moved back
to a non-terminal value. -/
theorem monitor_never_writes_nonterminal (recId : String)
    (script : Nat → PollResult) (rec : StoredRecord)
    (h : rec.status = RecordStatus.confirmed ∨ rec.status = RecordStatus.failed) :
    ((applyWritesTo recId rec (monitorTransaction recId script).writes).status
        = RecordStatus.confirmed
      ∨ (applyWritesTo recId rec (monitorTransaction recId script).writes).status
        = RecordStatus.failed)
    ∧ ∀ w ∈ (monitorTransaction recId script).writes,
        w.newStatus ≠ RecordStatus.pending ∧ w.newStatus ≠ RecordStatus.monitoring := by
  constructor
  · exact applyWritesTo_status_terminal recId _ rec h
      (fun w hw => checkStatus_writes_terminal recId script maxAttempts 0 (by omega) w hw)
  · intro w hw
    rcases checkStatus_writes_terminal recId script maxAttempts 0 (by omega) w hw
      with h1 | h1 <;> simp [h1]

/-- Witness for the amended C9 theorem at the confirmed record and the
failing-poll script. -/
theorem monitor_never_writes_nonterminal_witness :
    (applyWritesTo "rec-9w" confirmedRecord
        (monitorTransaction "rec-9w" scriptFailedPoll).writes).status
        = RecordStatus.confirmed
      ∨ (applyWritesTo "rec-9w" confirmedRecord
        (monitorTransaction "rec-9w" scriptFailedPoll).writes).status
        = RecordStatus.failed :=
  (monitor_never_writes_nonterminal "rec-9w" scriptFailedPoll confirmedRecord
    (Or.inl rfl)).1

/-- C1: in every run, any call to the payment provider occurs strictly after
the record insert, which sits at position zero of the trace; and when the
record insert throws, the workflow aborts with no provider call at all in the
trace. -/
theorem executePayment_record_before_provider (snap : Snapshot) (env : Env) :
    (∀ i e, (executePayment snap env).trace.get? i = some e →
        isProviderCall e = true →
        (executePayment snap env).trace.get? 0 = some Event.dbCreate ∧ 0 < i)
    ∧ (∀ msg, env.dbCreate = Except.error msg →
        ∀ e ∈ (executePayment snap env).trace, isProviderCall e = false) := by
  constructor
  · intro i e hi hp
    rcases executePayment_trace_shape snap env with h | h
    · rw [h] at hi
      simp at hi
    · exact providerCall_pos_of_head_dbCreate _ h i e hi hp
  · intro msg hmsg
    exact executePayment_abort_on_create_error snap env msg hmsg

/-- Witness for C1: a concrete run whose record insert throws makes no
provider call; the theorem applied to the record-insert event of that trace. -/
theorem executePayment_record_before_provider_witness :
    isProviderCall Event.dbCreate = false :=
  (executePayment_record_before_provider snapInitial envCreateRecordFails).2
    "db insert refused" rfl Event.dbCreate (by decide)

/-- C4 evaluated at the failing input: the record insert succeeds (id rec-1),
createPayment then throws an upstream error; the run ends with UI status
failed, yet the trace contains no status update, so the created record keeps
status pending: the catch block guards the failed write on the stale captured
transactionId, which is still the empty string. -/
theorem executePayment_upstream_error_leaves_record_pending :
    (executePayment snapInitial envUpstreamFailure).uiStatus = PaymentStatus.failed
    ∧ dbUpdates (executePayment snapInitial envUpstreamFailure).trace = []
    ∧ (applyWritesTo "rec-1" newRecord
        (dbUpdates (executePayment snapInitial envUpstreamFailure).trace)).status
        = RecordStatus.pending :=
  ⟨rfl, rfl, rfl⟩

/-- C6: whenever completion resolves with a body recognized by the
insufficient-funds guard, the run performs exactly the three external calls
and no persistence write, so the record stays exactly as created (status
pending, no hash, no confirmed timestamp); the funding banner shows, the UI
returns to confirming, and no monitoring session starts. -/
theorem executePayment_funding_gap_frame (snap : Snapshot) (env : Env)
    (w tk recId : String) (pay : PaymentLinkInfo) (body : CompletionBody)
    (hw : snap.userWallet = some w) (ht : snap.authToken = some tk)
    (hdb : env.dbCreate = Except.ok recId) (hac : env.apiCreate = Except.ok pay)
    (hacp : env.apiComplete = Except.ok body)
    (hins : isInsufficientFundsResponse body = true) :
    (executePayment snap env).trace =
      [Event.dbCreate, Event.apiCreatePayment, Event.apiCompletePayment]
    ∧ dbUpdates (executePayment snap env).trace = []
    ∧ applyWritesTo recId newRecord (dbUpdates (executePayment snap env).trace)
        = newRecord
    ∧ newRecord.status = RecordStatus.pending
    ∧ (executePayment snap env).showInsufficientFunds = true
    ∧ (executePayment snap env).uiStatus = PaymentStatus.confirming
    ∧ (executePayment snap env).monitor = none := by
  have hexec : executePayment snap env =
      { trace := [Event.dbCreate, Event.apiCreatePayment, Event.apiCompletePayment],
        uiStatus := PaymentStatus.confirming, uiError := "",
        showInsufficientFunds := true,
        paymentLink := pay.link.getD "", currentPaymentId := pay.id,
        stateTransactionId := recId, monitor := none } := by
    simp [executePayment, hw, ht, hdb, hac, hacp, hins]
  rw [hexec]
  exact ⟨rfl, rfl, rfl, rfl, rfl, rfl, rfl⟩

/-- Witness for C6 at the concrete funding-gap environment. -/
theorem executePayment_funding_gap_frame_witness :
    (executePayment snapInitial envFundingGap).trace =
      [Event.dbCreate, Event.apiCreatePayment, Event.apiCompletePayment]
    ∧ (executePayment snapInitial envFundingGap).showInsufficientFunds = true :=
  ⟨(executePayment_funding_gap_frame snapInitial envFundingGap "0xPayer" "jwt-token"
      "rec-6" { id := "pay-6", link := some "https://pay.example/fund" } fundingBody
      rfl rfl rfl rfl rfl rfl).1,
   (executePayment_funding_gap_frame snapInitial envFundingGap "0xPayer" "jwt-token"
      "rec-6" { id := "pay-6", link := some "https://pay.example/fund" } fundingBody
      rfl rfl rfl rfl rfl rfl).2.2.2.2.1⟩

/-- C7: completePayment has exactly three disjoint outcomes: on status 402 it
returns the body without throwing, and a body of the documented 402 shape (a
result with a funding link and no transaction id) is recognized by the
insufficient-funds guard; on any other non-2xx status it throws; on a 2xx
status it returns the body, and a body of the documented success shape
(result with a transaction id) is not taken for insufficient funds. -/
theorem completePayment_three_outcomes (resp : HttpResponse CompletionBody) :
    (resp.status = 402 →
        completePayment resp = Except.ok resp.body
        ∧ (∀ r l, resp.body.result = some r → r.link = some l →
            r.transactionId = none → isInsufficientFundsResponse resp.body = true))
    ∧ (resp.status ≠ 402 → responseOk resp.status = false →
        completePayment resp =
          Except.error ("Failed to complete payment: " ++ toString resp.status))
    ∧ (responseOk resp.status = true →
        completePayment resp = Except.ok resp.body
        ∧ (∀ r tx, resp.body.result = some r → r.transactionId = some tx →
            isInsufficientFundsResponse resp.body = false)) := by
  refine ⟨?_, ?_, ?_⟩
  · intro h402
    constructor
    · simp [completePayment, h402]
    · intro r l hres hlink htx
      simp [isInsufficientFundsResponse, hres, hlink, htx]
  · intro hne hok
    simp [completePayment, hne, hok]
  · intro hok
    have hne : resp.status ≠ 402 := by
      intro h
      rw [h] at hok
      simp [responseOk] at hok
    constructor
    · simp [completePayment, hne, hok]
    · intro r tx hres htx
      simp [isInsufficientFundsResponse, hres, htx]

/-- Witness for C7 at a concrete 402 response carrying the funding body. -/
theorem completePayment_three_outcomes_witness :
    completePayment resp402 = Except.ok fundingBody
    ∧ isInsufficientFundsResponse fundingBody = true := by
  have h := (completePayment_three_outcomes resp402).1 rfl
  exact ⟨h.1, h.2 _ "https://pay.example/fund" rfl rfl rfl⟩

/-- C10: createPayment returns a pair if and only if the HTTP status is 2xx
and the body carries a result object with a present, non-empty id; in that
case the returned pair is that id with the link copied from the body; and a
2xx response whose body lacks a usable result id throws the distinguished
invalid-format error, a failure mode beyond the non-2xx one. -/
theorem createPayment_ok_iff (resp : HttpResponse CreateBody) :
    ((∃ p, createPayment resp = Except.ok p) ↔
      responseOk resp.status = true
        ∧ ∃ r i, resp.body.result = some r ∧ r.id = some i ∧ i ≠ "")
    ∧ (∀ r i, responseOk resp.status = true → resp.body.result = some r →
        r.id = some i → i ≠ "" →
        createPayment resp = Except.ok { id := i, link := r.link })
    ∧ (responseOk resp.status = true →
        (resp.body.result = none
          ∨ ∃ r, resp.body.result = some r ∧ (r.id = none ∨ r.id = some "")) →
        createPayment resp = Except.error "Invalid payment response format from thirdweb API") := by
  refine ⟨?_, ?_, ?_⟩
  · constructor
    · rintro ⟨p, hp⟩
      cases hok : responseOk resp.status with
      | false =>
        rw [createPayment, hok] at hp
        simp at hp
      | true =>
        refine ⟨rfl, ?_⟩
        rcases hres : resp.body.result with _ | r
        · rw [createPayment, hok] at hp
          simp [hres] at hp
        · rcases hid : r.id with _ | i
          · rw [createPayment, hok] at hp
            simp [hres, hid] at hp
          · by_cases hi : i = ""
            · rw [createPayment, hok] at hp
              simp [hres, hid, hi] at hp
            · exact ⟨r, i, rfl, hid, hi⟩
    · rintro ⟨hok, r, i, hres, hid, hi⟩
      exact ⟨⟨i, r.link⟩, by simp [createPayment, hok, hres, hid, hi]⟩
  · intro r i hok hres hid hi
    simp [createPayment, hok, hres, hid, hi]
  · intro hok hbad
    rcases hbad with hres | ⟨r, hres, hid⟩
    · simp [createPayment, hok, hres]
    · rcases hid with hid | hid <;> simp [createPayment, hok, hres, hid]

/-- Witness for C10 at a concrete 2xx response with a well-formed body. -/
theorem createPayment_ok_iff_witness :
    createPayment respCreateOk =
      Except.ok { id := "pay-1", link := some "https://pay.example/fund" } :=
  (createPayment_ok_iff respCreateOk).2.1 _ "pay-1" rfl rfl rfl (by decide)

/-- C8 counterexample: a passive re-check that resolves with the
insufficient-funds body leaves the funding-gap presentation in place but
schedules no further re-check, refuting the claim that every such re-check
continues the retry loop by scheduling another one. -/
theorem recheck_insufficient_stops_cex :
    isInsufficientFundsResponse fundingBody = true
    ∧ (checkPaymentStatus snapAwaitingFunds (Except.ok fundingBody)
        scriptUnused).rescheduleDelayMs = none
    ∧ (checkPaymentStatus snapAwaitingFunds (Except.ok fundingBody)
        scriptUnused).showInsufficientFunds = true
    ∧ (checkPaymentStatus snapAwaitingFunds (Except.ok fundingBody)
        scriptUnused).paymentLink = "https://pay.example/fund" :=
  ⟨rfl, rfl, rfl, rfl⟩

/-- C8 amended: the first passive re-check is scheduled 10 seconds after the
funding link opens; a re-check that throws keeps the funding link presented
and schedules the next re-check after 5 seconds; a re-check resolving with
the insufficient-funds response keeps the funding link presented but
schedules no further re-check, ending the passive loop; a re-check resolving
with a transaction id clears the funding-gap presentation and, when a record
id was captured, persists status pending and starts the same monitoring loop
as the normal success path. -/
theorem recheck_loop_behavior (snap : Snapshot) (script : Nat → PollResult) :
    (snap.paymentLink ≠ "" → openPaymentLink snap = some 10000)
    ∧ (∀ e, checkPaymentStatus snap (Except.error e) script =
        { rescheduleDelayMs := some 5000,
          showInsufficientFunds := snap.showInsufficientFunds,
          paymentLink := snap.paymentLink, writes := [],
          uiStatus := snap.uiStatus, monitor := none })
    ∧ (∀ body, isInsufficientFundsResponse body = true →
        checkPaymentStatus snap (Except.ok body) script =
          { rescheduleDelayMs := none,
            showInsufficientFunds := snap.showInsufficientFunds,
            paymentLink := snap.paymentLink, writes := [],
            uiStatus := snap.uiStatus, monitor := none })
    ∧ (∀ body r tx, body.result = some r → r.transactionId = some tx →
        snap.transactionId ≠ "" →
        checkPaymentStatus snap (Except.ok body) script =
          { rescheduleDelayMs := none, showInsufficientFunds := false,
            paymentLink := "",
            writes := [{ recId := snap.transactionId,
                         newStatus := RecordStatus.pending, txHash := none }],
            uiStatus := (monitorTransaction snap.transactionId script).uiStatus,
            monitor := some (monitorTransaction snap.transactionId script) }) := by
  refine ⟨?_, ?_, ?_, ?_⟩
  · intro h
    simp [openPaymentLink, h]
  · intro e
    rfl
  · intro body hins
    rcases hres : body.result with _ | r
    · simp [checkPaymentStatus, hres]
    · have hins2 : (r.link.isSome && !r.transactionId.isSome) = true := by
        simpa [isInsufficientFundsResponse, hres] using hins
      have htx : r.transactionId = none := by
        rcases hid : r.transactionId with _ | tx
        · rfl
        · rw [hid] at hins2
          simp at hins2
      simp [checkPaymentStatus, hres, htx]
  · intro body r tx hres htx htid
    simp [checkPaymentStatus, hres, htx, htid]

/-- Witness for the amended C8 theorem at the awaiting-funds snapshot: the
opened link schedules the first re-check at 10 seconds and a thrown re-check
reschedules at 5 seconds with the presentation unchanged. -/
theorem recheck_loop_behavior_witness :
    openPaymentLink snapAwaitingFunds = some 10000
    ∧ checkPaymentStatus snapAwaitingFunds
        (Except.error "Failed to complete payment: 500") scriptUnused =
      { rescheduleDelayMs := some 5000, showInsufficientFunds := true,
        paymentLink := "https://pay.example/fund", writes := [],
        uiStatus := PaymentStatus.confirming, monitor := none } :=
  ⟨(recheck_loop_behavior snapAwaitingFunds scriptUnused).1 (by decide),
   (recheck_loop_behavior snapAwaitingFunds scriptUnused).2.1
     "Failed to complete payment: 500"⟩

end StablePay
